import Mathlib

/-!
Verification of the ums-payment-service core: a shallow embedding of the
payment data model (app/models.py), the event-bus operations and the
consumer callback (app/events.py), and the HTTP-layer mutating/query
operations (app/main.py), together with theorems settling the frozen
claims about them.

Conventions of the embedding:
* the database table of payments is a `List Payment`, newest appended last;
  SQLAlchemy's `query(...).filter(id == pid).first()` is `findPayment`,
  and an ORM mutation + commit of the found row is `updateFirst`;
* wall-clock time (`time.time()`, `func.now()`) is an explicit `now : Nat`
  parameter; `updated_at` is `Option Nat` (SQLAlchemy `onupdate` leaves it
  NULL until the first mutation);
* the message bus is a `BusOutcome` oracle: `rawPublish` models the pika
  connect/declare/publish calls, which either deliver the event or raise;
  `publish_event` is the source function that wraps them in try/except;
* Python `float` amounts are modelled as `ℚ`; Python `int(amount)` is
  `pyInt` (truncation toward zero);
* an inbound AMQP message body is `Option InboundBody` (`none` models a
  body that `json.loads` rejects); absent JSON keys are `none` fields.
-/

namespace UmsPayment

/-- The `payments` table row (app/models.py, class `Payment`). -/
structure Payment where
  id : Nat
  student_id : String
  enrollment_id : Int
  amount : ℚ
  status : String
  transaction_ref : Option String
  created_at : Nat
  updated_at : Option Nat
deriving Repr, DecidableEq

/-- Whether the message bus is reachable for one publish attempt. -/
inductive BusOutcome
  | ok
  | failed
deriving Repr, DecidableEq

/-- An outbound event as handed to `channel.basic_publish`: the routing key
and the serialized body `{"type": ..., "payload": {payment_id,
enrollment_id, student_id}}`. -/
structure PublishedEvent where
  routing_key : String
  type : String
  payment_id : Nat
  enrollment_id : Int
  student_id : String
deriving Repr, DecidableEq

/-- The raw pika publish path inside `publish_event` (connect, declare the
durable topic exchange, publish, close): delivers the event when the bus is
reachable, raises otherwise. -/
def rawPublish (bus : BusOutcome) (e : PublishedEvent) :
    Except String (List PublishedEvent) :=
  match bus with
  | .ok => .ok [e]
  | .failed => .error "connection error"

/-- `publish_event` (app/events.py): wraps the raw publish in
try/except — on any failure it logs and returns, delivering nothing and
raising nothing to the caller. -/
def publish_event (bus : BusOutcome) (e : PublishedEvent) :
    List PublishedEvent :=
  match rawPublish bus e with
  | .ok delivered => delivered
  | .error _ => []

/-- Python `int()` applied to a float/rational: truncation toward zero. -/
def pyInt (a : ℚ) : ℤ :=
  if 0 ≤ a then ⌊a⌋ else ⌈a⌉

/-- `db.query(Payment).filter(Payment.id == pid).first()`. -/
def findPayment : List Payment → Nat → Option Payment
  | [], _ => none
  | p :: rest, pid => if p.id = pid then some p else findPayment rest pid

/-- Mutating the ORM row found by `first()` and committing: replaces the
first row whose id matches. -/
def updateFirst : List Payment → Nat → (Payment → Payment) → List Payment
  | [], _, _ => []
  | p :: rest, pid, f =>
    if p.id = pid then f p :: rest else p :: updateFirst rest pid f

/-- The ORM row mutation of the gateway success branch: status SUCCESS,
a fresh `tx-{id}-{time}` transaction_ref, `updated_at` touched. -/
def gatewayConfirmUpdate (payment_id now : Nat) (q : Payment) : Payment :=
  { q with
    status := "SUCCESS"
    transaction_ref :=
      some ("tx-" ++ toString payment_id ++ "-" ++ toString now)
    updated_at := some now }

/-- The ORM row mutation of the gateway failure branch: status FAILED,
`updated_at` touched; transaction_ref untouched. -/
def gatewayFailUpdate (now : Nat) (q : Payment) : Payment :=
  { q with status := "FAILED", updated_at := some now }

/-- `process_payment_and_publish` (app/events.py): simulated gateway —
sleeps, decides success by `int(amount) % 2 == 0`, loads the payment (a
missing payment is a logged no-op), commits the status (and, on success, a
fresh `tx-{id}-{time}` transaction_ref), then publishes
PaymentConfirmed/PaymentFailed. Returns the table and the delivered
events. -/
def process_payment_and_publish (bus : BusOutcome) (now : Nat)
    (store : List Payment) (payment_id : Nat) (student_id : String)
    (enrollment_id : Int) (amount : ℚ) :
    List Payment × List PublishedEvent :=
  match findPayment store payment_id with
  | none => (store, [])
  | some p =>
    if pyInt amount % 2 = 0 then
      let store' := updateFirst store payment_id
        (gatewayConfirmUpdate payment_id now)
      let ev : PublishedEvent :=
        { routing_key := "payment.events.confirmed"
          type := "PaymentConfirmed"
          payment_id := p.id
          enrollment_id := enrollment_id
          student_id := student_id }
      (store', publish_event bus ev)
    else
      let store' := updateFirst store payment_id (gatewayFailUpdate now)
      let ev : PublishedEvent :=
        { routing_key := "payment.events.failed"
          type := "PaymentFailed"
          payment_id := p.id
          enrollment_id := enrollment_id
          student_id := student_id }
      (store', publish_event bus ev)

/-- The `payload` object of an inbound message; `none` fields are absent
JSON keys. -/
structure RegPayload where
  enrollment_id : Option Int
  student_id : Option String
  amount : Option ℚ
deriving Repr, DecidableEq

/-- An inbound message body `{"type": ..., "payload": {...}}`; either key
may be absent. -/
structure InboundBody where
  type : Option String
  payload : Option RegPayload
deriving Repr, DecidableEq

/-- `payload = body.get("payload", {})`: the default empty dict. -/
def emptyPayload : RegPayload :=
  { enrollment_id := none, student_id := none, amount := none }

/-- A freshly created PENDING payment row as committed by
`_process_registration_event` (id assigned by the store, `created_at` from
the server clock). -/
def mkPendingPayment (nextId : Nat) (now : Nat) (sid : String) (eid : Int)
    (amt : ℚ) : Payment :=
  { id := nextId
    student_id := sid
    enrollment_id := eid
    amount := amt
    status := "PENDING"
    transaction_ref := none
    created_at := now
    updated_at := none }

/-- `_process_registration_event` (app/events.py): reads
`enrollment_id`/`student_id` from the payload (`None` when absent) and
`amount` with default 0.0, then inserts a PENDING payment and commits.
A `None` in a NOT NULL column makes the commit raise, committing
nothing. -/
def process_registration_event (body : InboundBody) (nextId : Nat)
    (now : Nat) (store : List Payment) : Except String (List Payment) :=
  let payload := body.payload.getD emptyPayload
  let amt := payload.amount.getD 0
  match payload.enrollment_id, payload.student_id with
  | some eid, some sid =>
    .ok (store ++ [mkPendingPayment nextId now sid eid amt])
  | _, _ => .error "IntegrityError: NOT NULL constraint failed"

/-- The consumer's acknowledgement of one delivery. -/
inductive AckResult
  | acked (tag : Nat)
  | nacked (tag : Nat) (requeue : Bool)
deriving Repr, DecidableEq

/-- The `callback` closure of `_consumer_runloop` (app/events.py):
decodes the body (`none` = `json.loads` raised), hands it to
`_process_registration_event`, acks on success; on any exception it
logs and negative-acknowledges with `requeue=False`. Returns the table
and the acknowledgement. -/
def callback (msg : Option InboundBody) (tag : Nat) (nextId : Nat)
    (now : Nat) (store : List Payment) : List Payment × AckResult :=
  match msg with
  | none => (store, .nacked tag false)
  | some body =>
    match process_registration_event body nextId now store with
    | .ok store' => (store', .acked tag)
    | .error _ => (store, .nacked tag false)

/-- The arguments `_consumer_runloop` passes to `ch.queue_declare`. -/
structure QueueDeclaration where
  queue : String
  durable : Bool
  exclusive : Bool
deriving Repr, DecidableEq

/-- The queue declaration performed by `_consumer_runloop`
(app/events.py): a truthy (non-empty) `queue_name` is declared with
`durable=False, exclusive=False`; otherwise an anonymous exclusive queue
(pika's default `durable=False`). -/
def declareQueue (queue_name : String) : QueueDeclaration :=
  if queue_name = "" then
    { queue := "", durable := false, exclusive := true }
  else
    { queue := queue_name, durable := false, exclusive := false }

/-- The 404 surfaced by the HTTP endpoints when a payment id is absent. -/
inductive HttpError
  | notFound
deriving Repr, DecidableEq

/-- The ORM row mutation of a refund: status REFUNDED, `updated_at`
touched; transaction_ref untouched. -/
def refundUpdate (now : Nat) (q : Payment) : Payment :=
  { q with status := "REFUNDED", updated_at := some now }

/-- `refund_payment` (app/main.py): loads the payment (404 when absent),
sets status REFUNDED, commits, then publishes PaymentRefunded keyed
`payment.events.refund` with the payment's own identifiers. -/
def refund_payment (bus : BusOutcome) (now : Nat) (store : List Payment)
    (payment_id : Nat) :
    Except HttpError (List Payment × List PublishedEvent) :=
  match findPayment store payment_id with
  | none => .error .notFound
  | some p =>
    let store' := updateFirst store payment_id (refundUpdate now)
    let ev : PublishedEvent :=
      { routing_key := "payment.events.refund"
        type := "PaymentRefunded"
        payment_id := p.id
        enrollment_id := p.enrollment_id
        student_id := p.student_id }
    .ok (store', publish_event bus ev)

/-- The ORM row mutation of a manual approval: status SUCCESS, a fresh
`tx-manual-{id}-{time}` transaction_ref assigned unconditionally,
`updated_at` touched. -/
def approveUpdate (payment_id now : Nat) (q : Payment) : Payment :=
  { q with
    status := "SUCCESS"
    transaction_ref :=
      some ("tx-manual-" ++ toString payment_id ++ "-" ++ toString now)
    updated_at := some now }

/-- `approve_payment` (app/main.py): loads the payment (404 when absent),
sets status SUCCESS and unconditionally assigns a fresh
`tx-manual-{id}-{time}` transaction_ref, commits, then publishes
PaymentConfirmed keyed `payment.events.confirmed`. -/
def approve_payment (bus : BusOutcome) (now : Nat) (store : List Payment)
    (payment_id : Nat) :
    Except HttpError (List Payment × List PublishedEvent) :=
  match findPayment store payment_id with
  | none => .error .notFound
  | some p =>
    let store' := updateFirst store payment_id
      (approveUpdate payment_id now)
    let ev : PublishedEvent :=
      { routing_key := "payment.events.confirmed"
        type := "PaymentConfirmed"
        payment_id := p.id
        enrollment_id := p.enrollment_id
        student_id := p.student_id }
    .ok (store', publish_event bus ev)

/-- Python `str.upper()`: character-wise uppercase (the stored statuses
and filter values are ASCII, where this agrees with Python). -/
def pyUpper (s : String) : String :=
  ⟨s.data.map Char.toUpper⟩

/-- Insert a payment into a list kept in descending `created_at` order. -/
def insertDesc (p : Payment) : List Payment → List Payment
  | [] => [p]
  | q :: rest =>
    if q.created_at ≤ p.created_at then p :: q :: rest
    else q :: insertDesc p rest

/-- `order_by(Payment.created_at.desc())`: sort newest-created first. -/
def sortByCreatedDesc : List Payment → List Payment
  | [] => []
  | p :: rest => insertDesc p (sortByCreatedDesc rest)

/-- `list_payments` (app/main.py): optional filters — a truthy `status`
is uppercased and matched exactly against the stored status, a truthy
`student_id` is matched exactly — then ordered by `created_at`
descending. A `None` or empty filter (Python falsy) is skipped. -/
def list_payments (store : List Payment) (status : Option String)
    (student_id : Option String) : List Payment :=
  let q := store
  let q :=
    match status with
    | none => q
    | some s => if s = "" then q else q.filter fun p => p.status == pyUpper s
  let q :=
    match student_id with
    | none => q
    | some sid => if sid = "" then q else q.filter fun p => p.student_id == sid
  sortByCreatedDesc q

/-! ### Helper lemmas about the store operations -/

/-- Looking up the updated id after `updateFirst` returns the mutated row,
provided the mutation keeps the primary key. -/
theorem findPayment_updateFirst (store : List Payment) (pid : Nat)
    (f : Payment → Payment) (hf : ∀ q, (f q).id = q.id) (p : Payment)
    (hp : findPayment store pid = some p) :
    findPayment (updateFirst store pid f) pid = some (f p) := by
  induction store with
  | nil => simp [findPayment] at hp
  | cons q rest ih =>
    by_cases hq : q.id = pid
    · simp [findPayment, hq] at hp
      subst hp
      simp [updateFirst, findPayment, hq, hf]
    · simp [findPayment, hq] at hp
      simp [updateFirst, findPayment, hq, ih hp]

/-- Fields that no post-creation mutation may change. -/
def sameCore (p q : Payment) : Prop :=
  p.id = q.id ∧ p.student_id = q.student_id ∧
  p.enrollment_id = q.enrollment_id ∧ p.amount = q.amount ∧
  p.created_at = q.created_at

theorem sameCore_refl (p : Payment) : sameCore p p := by
  simp [sameCore]

/-- `updateFirst` relates the old and new tables row by row; a mutation
that preserves the core fields preserves them across the whole table. -/
theorem forall2_sameCore_updateFirst (pid : Nat) (f : Payment → Payment)
    (hf : ∀ q, sameCore q (f q)) :
    ∀ store : List Payment,
      List.Forall₂ sameCore store (updateFirst store pid f) := by
  intro store
  induction store with
  | nil => simp [updateFirst]
  | cons q rest ih =>
    by_cases hq : q.id = pid
    · simp only [updateFirst, hq, if_pos]
      exact List.Forall₂.cons (hf q) (List.forall₂_same.mpr fun x _ => sameCore_refl x)
    · simp only [updateFirst, hq, if_neg, ite_false]
      exact List.Forall₂.cons (sameCore_refl q) ih

/-! ### Helper lemmas about sorting and filtering -/

theorem mem_insertDesc (x p : Payment) (l : List Payment) :
    x ∈ insertDesc p l ↔ x = p ∨ x ∈ l := by
  induction l with
  | nil => simp [insertDesc]
  | cons q rest ih =>
    by_cases hc : q.created_at ≤ p.created_at
    · simp [insertDesc, hc]
    · simp [insertDesc, hc, ih]
      tauto

theorem mem_sortByCreatedDesc (x : Payment) (l : List Payment) :
    x ∈ sortByCreatedDesc l ↔ x ∈ l := by
  induction l with
  | nil => simp [sortByCreatedDesc]
  | cons p rest ih =>
    simp [sortByCreatedDesc, mem_insertDesc, ih]

/-- The newest-first ordering relation on rows. -/
def newerEq (a b : Payment) : Prop := b.created_at ≤ a.created_at

theorem pairwise_insertDesc (p : Payment) (l : List Payment)
    (h : List.Pairwise newerEq l) :
    List.Pairwise newerEq (insertDesc p l) := by
  induction l with
  | nil => simp [insertDesc, List.Pairwise]
  | cons q rest ih =>
    rcases List.pairwise_cons.mp h with ⟨hq, hrest⟩
    by_cases hc : q.created_at ≤ p.created_at
    · simp only [insertDesc, hc, if_pos]
      refine List.pairwise_cons.mpr ⟨?_, h⟩
      intro x hx
      rcases List.mem_cons.mp hx with hxq | hxr
      · subst hxq; exact hc
      · exact le_trans (hq x hxr) hc
    · simp only [insertDesc, hc, ite_false]
      refine List.pairwise_cons.mpr ⟨?_, ih hrest⟩
      intro x hx
      rcases (mem_insertDesc x p rest).mp hx with hxp | hxr
      · subst hxp; exact le_of_not_le hc
      · exact hq x hxr

theorem pairwise_sortByCreatedDesc (l : List Payment) :
    List.Pairwise newerEq (sortByCreatedDesc l) := by
  induction l with
  | nil => simp [sortByCreatedDesc]
  | cons p rest ih => exact pairwise_insertDesc p _ ih

/-! ### Claim theorems -/

/-- C6 (confirmed): invoking `process_payment_and_publish` with a payment
id absent from the store is a silent no-op — the table is unchanged,
nothing is published, and the function returns normally (no error value in
its type, so none is surfaced to any caller). -/
theorem processOutcome_missing_payment_noop (bus : BusOutcome) (now : Nat)
    (store : List Payment) (pid : Nat) (sid : String) (eid : Int)
    (amount : ℚ) (h : findPayment store pid = none) :
    process_payment_and_publish bus now store pid sid eid amount =
      (store, []) := by
  simp [process_payment_and_publish, h]

/-- Witness for C6 at the empty store and id 7. -/
theorem processOutcome_missing_payment_noop_witness :
    findPayment [] 7 = none ∧
      process_payment_and_publish .ok 0 [] 7 "S1" 42 100 = ([], []) :=
  ⟨rfl, processOutcome_missing_payment_noop .ok 0 [] 7 "S1" 42 100 rfl⟩

/-- C9 counterexample: the run-loop declares the non-empty queue name
`"payment_queue"` with `durable=False`, contradicting the claim that a
named queue is declared durable. -/
theorem consumer_queue_durable_counterexample :
    ("payment_queue" ≠ "") ∧ ¬(declareQueue "payment_queue").durable := by
  decide

/-- C9 (corrected): given a non-empty queue name the run-loop declares
that queue non-durable and non-exclusive; only with no queue name does it
declare an exclusive anonymous queue. -/
theorem consumer_queue_declaration (qn : String) :
    (qn ≠ "" → declareQueue qn =
      { queue := qn, durable := false, exclusive := false }) ∧
    declareQueue "" = { queue := "", durable := false, exclusive := true } := by
  constructor
  · intro h
    simp [declareQueue, h]
  · rfl

/-- Witness for C9 at the production queue name. -/
theorem consumer_queue_declaration_witness :
    ("payment_queue" ≠ "") ∧
      declareQueue "payment_queue" =
        { queue := "payment_queue", durable := false, exclusive := false } :=
  ⟨by decide, (consumer_queue_declaration "payment_queue").1 (by decide)⟩

/-- C4 (confirmed): `publish_event` is total — it delivers the event on a
reachable bus and on failure swallows the error and delivers nothing,
never propagating to the caller; and in `process_payment_and_publish`,
`approve_payment` and `refund_payment` the committed table does not depend
on the bus outcome: a failing publish leaves the already-committed status
change in place (no rollback). -/
theorem publish_failure_isolated :
    (∀ e : PublishedEvent,
      publish_event .ok e = [e] ∧ publish_event .failed e = []) ∧
    (∀ (bus : BusOutcome) (now : Nat) (store : List Payment) (pid : Nat)
        (sid : String) (eid : Int) (amount : ℚ),
      (process_payment_and_publish bus now store pid sid eid amount).1 =
        (process_payment_and_publish .failed now store pid sid eid amount).1) ∧
    (∀ (bus : BusOutcome) (now : Nat) (store : List Payment) (pid : Nat),
      (approve_payment bus now store pid).map Prod.fst =
        (approve_payment .failed now store pid).map Prod.fst) ∧
    (∀ (bus : BusOutcome) (now : Nat) (store : List Payment) (pid : Nat),
      (refund_payment bus now store pid).map Prod.fst =
        (refund_payment .failed now store pid).map Prod.fst) := by
  refine ⟨fun e => ⟨rfl, rfl⟩, ?_, ?_, ?_⟩
  · intro bus now store pid sid eid amount
    cases h : findPayment store pid with
    | none => simp [process_payment_and_publish, h]
    | some p =>
      simp [process_payment_and_publish, h]
      split <;> rfl
  · intro bus now store pid
    cases h : findPayment store pid <;> simp [approve_payment, h, Except.map]
  · intro bus now store pid
    cases h : findPayment store pid <;> simp [refund_payment, h, Except.map]

/-- C10 (confirmed): the inbound processor never inspects the event's
`type` field — the created rows and the acknowledgement depend only on the
`payload` object — and a body with no `payload` key behaves exactly as one
whose payload is the empty object. -/
theorem inbound_type_ignored (t₁ t₂ : Option String)
    (pl : Option RegPayload) (tag nextId now : Nat)
    (store : List Payment) :
    process_registration_event ⟨t₁, pl⟩ nextId now store =
      process_registration_event ⟨t₂, pl⟩ nextId now store ∧
    callback (some ⟨t₁, pl⟩) tag nextId now store =
      callback (some ⟨t₂, pl⟩) tag nextId now store ∧
    process_registration_event ⟨t₁, none⟩ nextId now store =
      process_registration_event ⟨t₁, some emptyPayload⟩ nextId now store :=
  ⟨rfl, rfl, rfl⟩

/-- C2 (confirmed): a decodable body whose payload carries both
`enrollment_id` and `student_id` makes the consumer append exactly one new
PENDING payment — identifiers copied verbatim, `amount` defaulting to 0
when absent — and acknowledge; an undecodable body, or any body whose
processing raises, commits zero payments and negative-acknowledges with
`requeue=False`. -/
theorem inbound_event_creates_pending (tag nextId now : Nat)
    (store : List Payment) :
    (∀ (t : Option String) (pl : RegPayload) (eid : Int) (sid : String),
      pl.enrollment_id = some eid → pl.student_id = some sid →
      callback (some ⟨t, some pl⟩) tag nextId now store =
        (store ++ [mkPendingPayment nextId now sid eid (pl.amount.getD 0)],
          .acked tag)) ∧
    (callback none tag nextId now store = (store, .nacked tag false)) ∧
    (∀ (body : InboundBody) (e : String),
      process_registration_event body nextId now store = .error e →
      callback (some body) tag nextId now store =
        (store, .nacked tag false)) := by
  refine ⟨?_, rfl, ?_⟩
  · intro t pl eid sid he hs
    simp [callback, process_registration_event, he, hs]
  · intro body e he
    simp [callback, he]

/-- Witness for C2: a concrete registration event with `amount` absent
creates one PENDING payment with amount 0 and is acked. -/
theorem inbound_event_creates_pending_witness :
    (some 42 : Option Int) = some 42 ∧
      callback
        (some ⟨some "RegistrationPendingPayment",
          some ⟨some 42, some "S1", none⟩⟩) 3 5 7 [] =
        ([mkPendingPayment 5 7 "S1" 42 0], .acked 3) :=
  ⟨rfl,
    (inbound_event_creates_pending 3 5 7 []).1
      (some "RegistrationPendingPayment") ⟨some 42, some "S1", none⟩
      42 "S1" rfl rfl⟩

/-- C5 (confirmed): refunding an existing payment, whatever its current
status, commits status REFUNDED and attempts exactly one PaymentRefunded
publish keyed `payment.events.refund` whose payload is the payment's own
`{payment_id, enrollment_id, student_id}` (delivered when the bus is up,
dropped when it is down). -/
theorem refund_any_status (bus : BusOutcome) (now : Nat)
    (store : List Payment) (pid : Nat) (p : Payment)
    (hp : findPayment store pid = some p) :
    ∃ s' d, refund_payment bus now store pid = .ok (s', d) ∧
      (findPayment s' pid).map Payment.status = some "REFUNDED" ∧
      (bus = .ok → d =
        [{ routing_key := "payment.events.refund", type := "PaymentRefunded",
           payment_id := p.id, enrollment_id := p.enrollment_id,
           student_id := p.student_id }]) ∧
      (bus = .failed → d = []) := by
  have hupd := findPayment_updateFirst store pid (refundUpdate now)
    (fun q => rfl) p hp
  have heq : refund_payment bus now store pid =
      .ok (updateFirst store pid (refundUpdate now),
        publish_event bus
          { routing_key := "payment.events.refund",
            type := "PaymentRefunded", payment_id := p.id,
            enrollment_id := p.enrollment_id,
            student_id := p.student_id }) := by
    simp [refund_payment, hp]
  refine ⟨_, _, heq, ?_, ?_, ?_⟩
  · simp [hupd, refundUpdate]
  · intro hb
    subst hb
    rfl
  · intro hb
    subst hb
    rfl

/-- Witness for C5: refunding a FAILED payment yields REFUNDED and one
PaymentRefunded event. -/
theorem refund_any_status_witness :
    findPayment
        [{ id := 1, student_id := "S1", enrollment_id := 42, amount := 3,
           status := "FAILED", transaction_ref := none, created_at := 0,
           updated_at := some 0 }] 1 =
      some { id := 1, student_id := "S1", enrollment_id := 42, amount := 3,
             status := "FAILED", transaction_ref := none, created_at := 0,
             updated_at := some 0 } ∧
    ∃ s' d,
      refund_payment .ok 9
          [{ id := 1, student_id := "S1", enrollment_id := 42, amount := 3,
             status := "FAILED", transaction_ref := none, created_at := 0,
             updated_at := some 0 }] 1 = .ok (s', d) ∧
        (findPayment s' 1).map Payment.status = some "REFUNDED" ∧
        (BusOutcome.ok = .ok → d =
          [{ routing_key := "payment.events.refund",
             type := "PaymentRefunded", payment_id := 1,
             enrollment_id := 42, student_id := "S1" }]) ∧
        (BusOutcome.ok = .failed → d = []) :=
  ⟨rfl,
    refund_any_status .ok 9
      [{ id := 1, student_id := "S1", enrollment_id := 42, amount := 3,
         status := "FAILED", transaction_ref := none, created_at := 0,
         updated_at := some 0 }] 1
      { id := 1, student_id := "S1", enrollment_id := 42, amount := 3,
        status := "FAILED", transaction_ref := none, created_at := 0,
        updated_at := some 0 } rfl⟩

/-- C1 counterexample: a payment whose transaction_ref is already non-null
(set by an earlier manual approval) processed with the odd amount 1 ends
with status FAILED yet a non-null transaction_ref, refuting the claimed
"transaction_ref non-null iff outcome SUCCESS" for arbitrary payments. -/
theorem processOutcome_txref_counterexample :
    (0 : ℚ) ≤ 1 ∧
    (findPayment (process_payment_and_publish .ok 5
        [{ id := 1, student_id := "S1", enrollment_id := 42, amount := 1,
           status := "SUCCESS", transaction_ref := some "tx-manual-1-0",
           created_at := 0, updated_at := some 0 }] 1 "S1" 42 1).1 1).map
        Payment.status = some "FAILED" ∧
    (findPayment (process_payment_and_publish .ok 5
        [{ id := 1, student_id := "S1", enrollment_id := 42, amount := 1,
           status := "SUCCESS", transaction_ref := some "tx-manual-1-0",
           created_at := 0, updated_at := some 0 }] 1 "S1" 42 1).1 1).map
        Payment.transaction_ref = some (some "tx-manual-1-0") := by
  refine ⟨by norm_num, ?_, ?_⟩ <;> rfl

/-- C1 (corrected): for an existing payment processed with a non-negative
amount, the committed status is SUCCESS iff `⌊amount⌋` is even and FAILED
otherwise; and — provided its transaction_ref was null before processing —
the resulting transaction_ref is non-null iff the outcome is SUCCESS. -/
theorem processOutcome_parity_txref (bus : BusOutcome) (now : Nat)
    (store : List Payment) (pid : Nat) (sid : String) (eid : Int)
    (amount : ℚ) (p : Payment) (ha : 0 ≤ amount)
    (hp : findPayment store pid = some p) :
    ∃ p', findPayment
        (process_payment_and_publish bus now store pid sid eid amount).1 pid =
          some p' ∧
      (p'.status = "SUCCESS" ↔ ⌊amount⌋ % 2 = 0) ∧
      (p'.status = "FAILED" ↔ ¬⌊amount⌋ % 2 = 0) ∧
      (p.transaction_ref = none →
        (p'.transaction_ref ≠ none ↔ p'.status = "SUCCESS")) := by
  have hpy : pyInt amount = ⌊amount⌋ := by
    simp [pyInt, ha]
  by_cases hev : ⌊amount⌋ % 2 = 0
  · have hupd := findPayment_updateFirst store pid
      (gatewayConfirmUpdate pid now) (fun q => rfl) p hp
    refine ⟨gatewayConfirmUpdate pid now p, ?_, ?_, ?_, ?_⟩
    · simp only [process_payment_and_publish, hp, hpy, hev]
      simpa using hupd
    · simp [gatewayConfirmUpdate, hev]
    · simp [gatewayConfirmUpdate, hev]
    · intro _
      simp [gatewayConfirmUpdate]
  · have hupd := findPayment_updateFirst store pid
      (gatewayFailUpdate now) (fun q => rfl) p hp
    refine ⟨gatewayFailUpdate now p, ?_, ?_, ?_, ?_⟩
    · simp only [process_payment_and_publish, hp, hpy, hev]
      simpa using hupd
    · simp [gatewayFailUpdate, hev]
    · simp [gatewayFailUpdate, hev]
    · intro htx
      simp [gatewayFailUpdate, htx, hev]

/-- Witness for C1: a fresh PENDING payment of amount 100 processed on a
live bus ends SUCCESS with the parity and transaction_ref properties. -/
theorem processOutcome_parity_txref_witness :
    (0 : ℚ) ≤ 100 ∧
    ∃ p', findPayment
        (process_payment_and_publish .ok 5
          [{ id := 1, student_id := "S1", enrollment_id := 42,
             amount := 100, status := "PENDING", transaction_ref := none,
             created_at := 0, updated_at := none }] 1 "S1" 42 100).1 1 =
          some p' ∧
      (p'.status = "SUCCESS" ↔ ⌊(100 : ℚ)⌋ % 2 = 0) ∧
      (p'.status = "FAILED" ↔ ¬⌊(100 : ℚ)⌋ % 2 = 0) ∧
      ((none : Option String) = none →
        (p'.transaction_ref ≠ none ↔ p'.status = "SUCCESS")) :=
  ⟨by norm_num,
    processOutcome_parity_txref .ok 5
      [{ id := 1, student_id := "S1", enrollment_id := 42, amount := 100,
         status := "PENDING", transaction_ref := none, created_at := 0,
         updated_at := none }] 1 "S1" 42 100
      { id := 1, student_id := "S1", enrollment_id := 42, amount := 100,
        status := "PENDING", transaction_ref := none, created_at := 0,
        updated_at := none } (by norm_num) rfl⟩

/-- C3 counterexample: approving a payment whose transaction_ref is
already the non-null `"tx-1-0"` overwrites it with the fresh manual
reference `"tx-manual-1-5"`, refuting the claim that a later approve
leaves an existing transaction_ref unchanged. -/
theorem transaction_ref_overwrite_counterexample :
    Except.map
        (fun r => (findPayment (Prod.fst r) 1).map Payment.transaction_ref)
        (approve_payment .ok 5
          [{ id := 1, student_id := "S1", enrollment_id := 42, amount := 2,
             status := "SUCCESS", transaction_ref := some "tx-1-0",
             created_at := 0, updated_at := some 0 }] 1) =
      .ok (some (some "tx-manual-1-5")) ∧
    some "tx-manual-1-5" ≠ some "tx-1-0" := by
  refine ⟨rfl, by decide⟩

/-- C3 (corrected): transaction_ref is assigned when status becomes
SUCCESS and is never cleared to null — refund leaves it exactly as it was,
the gateway failure branch leaves it exactly as it was, and the gateway
success branch and manual approval assign a non-null reference — but a
manual approval always assigns a fresh `tx-manual-{id}-{time}` reference,
overwriting any transaction_ref the payment already had. -/
theorem transaction_ref_lifecycle :
    (∀ (bus : BusOutcome) (now : Nat) (store : List Payment) (pid : Nat)
        (p : Payment) (s' : List Payment) (d : List PublishedEvent),
      findPayment store pid = some p →
      refund_payment bus now store pid = .ok (s', d) →
      (findPayment s' pid).map Payment.transaction_ref =
        some p.transaction_ref) ∧
    (∀ (bus : BusOutcome) (now : Nat) (store : List Payment) (pid : Nat)
        (sid : String) (eid : Int) (amount : ℚ) (p : Payment),
      findPayment store pid = some p → ¬pyInt amount % 2 = 0 →
      (findPayment
          (process_payment_and_publish bus now store pid sid eid amount).1
          pid).map Payment.transaction_ref = some p.transaction_ref) ∧
    (∀ (bus : BusOutcome) (now : Nat) (store : List Payment) (pid : Nat)
        (sid : String) (eid : Int) (amount : ℚ) (p : Payment),
      findPayment store pid = some p → pyInt amount % 2 = 0 →
      (findPayment
          (process_payment_and_publish bus now store pid sid eid amount).1
          pid).map Payment.transaction_ref =
        some (some ("tx-" ++ toString pid ++ "-" ++ toString now))) ∧
    (∀ (bus : BusOutcome) (now : Nat) (store : List Payment) (pid : Nat)
        (p : Payment) (s' : List Payment) (d : List PublishedEvent),
      findPayment store pid = some p →
      approve_payment bus now store pid = .ok (s', d) →
      (findPayment s' pid).map Payment.transaction_ref =
        some (some ("tx-manual-" ++ toString pid ++ "-" ++ toString now))) := by
  refine ⟨?_, ?_, ?_, ?_⟩
  · intro bus now store pid p s' d hp heq
    have hupd := findPayment_updateFirst store pid (refundUpdate now)
      (fun q => rfl) p hp
    simp only [refund_payment, hp, Except.ok.injEq, Prod.mk.injEq] at heq
    rw [← heq.1]
    simp [hupd, refundUpdate]
  · intro bus now store pid sid eid amount p hp hodd
    have hupd := findPayment_updateFirst store pid (gatewayFailUpdate now)
      (fun q => rfl) p hp
    simp only [process_payment_and_publish, hp, hodd, ite_false]
    simp [hupd, gatewayFailUpdate]
  · intro bus now store pid sid eid amount p hp heven
    have hupd := findPayment_updateFirst store pid
      (gatewayConfirmUpdate pid now) (fun q => rfl) p hp
    simp only [process_payment_and_publish, hp, heven, ite_true]
    simp [hupd, gatewayConfirmUpdate]
  · intro bus now store pid p s' d hp heq
    have hupd := findPayment_updateFirst store pid
      (approveUpdate pid now) (fun q => rfl) p hp
    simp only [approve_payment, hp, Except.ok.injEq, Prod.mk.injEq] at heq
    rw [← heq.1]
    simp [hupd, approveUpdate]

/-- Witness for C3: refunding a payment that carries transaction_ref
`"tx-1-0"` leaves that reference untouched. -/
theorem transaction_ref_lifecycle_witness :
    findPayment
        [{ id := 1, student_id := "S1", enrollment_id := 42, amount := 2,
           status := "SUCCESS", transaction_ref := some "tx-1-0",
           created_at := 0, updated_at := some 0 }] 1 =
      some { id := 1, student_id := "S1", enrollment_id := 42, amount := 2,
             status := "SUCCESS", transaction_ref := some "tx-1-0",
             created_at := 0, updated_at := some 0 } ∧
    (findPayment
        [{ id := 1, student_id := "S1", enrollment_id := 42, amount := 2,
           status := "REFUNDED", transaction_ref := some "tx-1-0",
           created_at := 0, updated_at := some 9 }] 1).map
        Payment.transaction_ref = some (some "tx-1-0") :=
  ⟨rfl,
    transaction_ref_lifecycle.1 .ok 9
      [{ id := 1, student_id := "S1", enrollment_id := 42, amount := 2,
         status := "SUCCESS", transaction_ref := some "tx-1-0",
         created_at := 0, updated_at := some 0 }] 1
      { id := 1, student_id := "S1", enrollment_id := 42, amount := 2,
        status := "SUCCESS", transaction_ref := some "tx-1-0",
        created_at := 0, updated_at := some 0 }
      [{ id := 1, student_id := "S1", enrollment_id := 42, amount := 2,
         status := "REFUNDED", transaction_ref := some "tx-1-0",
         created_at := 0, updated_at := some 9 }]
      (publish_event .ok
        { routing_key := "payment.events.refund", type := "PaymentRefunded",
          payment_id := 1, enrollment_id := 42, student_id := "S1" })
      rfl rfl⟩

/-- C7 (confirmed): the listing is ordered by `created_at` newest first;
a non-empty status filter is normalized to uppercase and matched exactly
against the stored status — so the lowercase filter `"success"` returns
exactly the SUCCESS payments — and a non-empty student filter matches by
exact string equality. (An empty filter value is Python-falsy and is
skipped, like an absent one.) -/
theorem list_payments_filters_and_order (store : List Payment) :
    (∀ st sid, List.Pairwise newerEq (list_payments store st sid)) ∧
    (∀ s, s ≠ "" → ∀ p, p ∈ list_payments store (some s) none ↔
      p ∈ store ∧ p.status = pyUpper s) ∧
    (∀ sid, sid ≠ "" → ∀ p, p ∈ list_payments store none (some sid) ↔
      p ∈ store ∧ p.student_id = sid) ∧
    (∀ p, p ∈ list_payments store (some "success") none ↔
      p ∈ store ∧ p.status = "SUCCESS") ∧
    (∀ sid, list_payments store (some "") sid = list_payments store none sid) := by
  have hmem : ∀ s, s ≠ "" → ∀ p,
      p ∈ list_payments store (some s) none ↔
        p ∈ store ∧ p.status = pyUpper s := by
    intro s hs p
    simp [list_payments, hs, mem_sortByCreatedDesc, List.mem_filter]
  refine ⟨?_, hmem, ?_, ?_, ?_⟩
  · intro st sid
    cases st <;> cases sid <;> simp only [list_payments] <;>
      (try split_ifs) <;> exact pairwise_sortByCreatedDesc _
  · intro sid hsid p
    simp [list_payments, hsid, mem_sortByCreatedDesc, List.mem_filter]
  · intro p
    have h := hmem "success" (by decide) p
    rwa [show (pyUpper "success" = "SUCCESS") from rfl] at h
  · intro sid
    rfl

/-- Witness for C7: the lowercase filter `"success"` matches a stored
SUCCESS payment. -/
theorem list_payments_filters_and_order_witness :
    ("success" ≠ "") ∧
    (({ id := 1, student_id := "S1", enrollment_id := 42, amount := 2,
        status := "SUCCESS", transaction_ref := some "tx-1-0",
        created_at := 3, updated_at := some 3 } : Payment) ∈
        list_payments
          [{ id := 1, student_id := "S1", enrollment_id := 42, amount := 2,
             status := "SUCCESS", transaction_ref := some "tx-1-0",
             created_at := 3, updated_at := some 3 }]
          (some "success") none ↔
      ({ id := 1, student_id := "S1", enrollment_id := 42, amount := 2,
         status := "SUCCESS", transaction_ref := some "tx-1-0",
         created_at := 3, updated_at := some 3 } : Payment) ∈
          ([{ id := 1, student_id := "S1", enrollment_id := 42, amount := 2,
              status := "SUCCESS", transaction_ref := some "tx-1-0",
              created_at := 3, updated_at := some 3 }] : List Payment) ∧
        Payment.status
          { id := 1, student_id := "S1", enrollment_id := 42, amount := 2,
            status := "SUCCESS", transaction_ref := some "tx-1-0",
            created_at := 3, updated_at := some 3 } = pyUpper "success") :=
  ⟨by decide,
    (list_payments_filters_and_order
      [{ id := 1, student_id := "S1", enrollment_id := 42, amount := 2,
         status := "SUCCESS", transaction_ref := some "tx-1-0",
         created_at := 3, updated_at := some 3 }]).2.1 "success" (by decide)
      { id := 1, student_id := "S1", enrollment_id := 42, amount := 2,
        status := "SUCCESS", transaction_ref := some "tx-1-0",
        created_at := 3, updated_at := some 3 }⟩

/-- C8 (confirmed): each post-creation mutating operation — gateway
outcome processing, manual approval, refund — relates the old and new
tables row by row, preserving `id`, `student_id`, `enrollment_id`,
`amount` and `created_at` of every payment (only `status`,
`transaction_ref` and `updated_at` may change). -/
theorem mutation_frame (bus : BusOutcome) (now : Nat)
    (store : List Payment) (pid : Nat) :
    (∀ (sid : String) (eid : Int) (amount : ℚ),
      List.Forall₂ sameCore store
        (process_payment_and_publish bus now store pid sid eid amount).1) ∧
    (∀ (s' : List Payment) (d : List PublishedEvent),
      approve_payment bus now store pid = .ok (s', d) →
      List.Forall₂ sameCore store s') ∧
    (∀ (s' : List Payment) (d : List PublishedEvent),
      refund_payment bus now store pid = .ok (s', d) →
      List.Forall₂ sameCore store s') := by
  have hrefl : List.Forall₂ sameCore store store :=
    List.forall₂_same.mpr fun x _ => sameCore_refl x
  refine ⟨?_, ?_, ?_⟩
  · intro sid eid amount
    cases h : findPayment store pid with
    | none => simpa [process_payment_and_publish, h] using hrefl
    | some p =>
      by_cases hev : pyInt amount % 2 = 0
      · simp only [process_payment_and_publish, h, hev, ite_true]
        exact forall2_sameCore_updateFirst pid _
          (fun q => by simp [sameCore, gatewayConfirmUpdate]) store
      · simp only [process_payment_and_publish, h, hev, ite_false]
        exact forall2_sameCore_updateFirst pid _
          (fun q => by simp [sameCore, gatewayFailUpdate]) store
  · intro s' d heq
    cases h : findPayment store pid with
    | none => simp [approve_payment, h] at heq
    | some p =>
      simp only [approve_payment, h, Except.ok.injEq, Prod.mk.injEq] at heq
      rw [← heq.1]
      exact forall2_sameCore_updateFirst pid _
        (fun q => by simp [sameCore, approveUpdate]) store
  · intro s' d heq
    cases h : findPayment store pid with
    | none => simp [refund_payment, h] at heq
    | some p =>
      simp only [refund_payment, h, Except.ok.injEq, Prod.mk.injEq] at heq
      rw [← heq.1]
      exact forall2_sameCore_updateFirst pid _
        (fun q => by simp [sameCore, refundUpdate]) store

/-- Witness for C8: refunding a concrete payment preserves its core
fields. -/
theorem mutation_frame_witness :
    refund_payment .ok 9
        [{ id := 1, student_id := "S1", enrollment_id := 42, amount := 2,
           status := "SUCCESS", transaction_ref := some "tx-1-0",
           created_at := 0, updated_at := some 0 }] 1 =
      .ok ([{ id := 1, student_id := "S1", enrollment_id := 42, amount := 2,
              status := "REFUNDED", transaction_ref := some "tx-1-0",
              created_at := 0, updated_at := some 9 }],
        [{ routing_key := "payment.events.refund", type := "PaymentRefunded",
           payment_id := 1, enrollment_id := 42, student_id := "S1" }]) ∧
    List.Forall₂ sameCore
      [{ id := 1, student_id := "S1", enrollment_id := 42, amount := 2,
         status := "SUCCESS", transaction_ref := some "tx-1-0",
         created_at := 0, updated_at := some 0 }]
      [{ id := 1, student_id := "S1", enrollment_id := 42, amount := 2,
         status := "REFUNDED", transaction_ref := some "tx-1-0",
         created_at := 0, updated_at := some 9 }] :=
  ⟨rfl,
    (mutation_frame .ok 9
      [{ id := 1, student_id := "S1", enrollment_id := 42, amount := 2,
         status := "SUCCESS", transaction_ref := some "tx-1-0",
         created_at := 0, updated_at := some 0 }] 1).2.2
      ([{ id := 1, student_id := "S1", enrollment_id := 42, amount := 2,
          status := "REFUNDED", transaction_ref := some "tx-1-0",
          created_at := 0, updated_at := some 9 }] : List Payment)
      ([{ routing_key := "payment.events.refund", type := "PaymentRefunded",
          payment_id := 1, enrollment_id := 42, student_id := "S1" }] :
        List PublishedEvent) rfl⟩

end UmsPayment
